import Mathlib

/-!
Verification of the OpenAI image-generation MCP server.

The server (`mcp-server.ts`) exposes a single `generate_image` tool over the
Model Context Protocol. This development is a shallow embedding of the
protocol handler: startup credential validation, the `tools/list` handler,
and the `tools/call` handler with its per-model option construction.
The Image Provider Adapter (`openai-provider.ts`) is treated as an abstract
collaborator, modelled as a function from prompt, output path and options to
an `Except`-style result; its multi-file naming scheme, whose source is not
available here, is modelled from the specification.
-/

namespace OpenAiImageMcp

/-- JavaScript falsiness of an optional string value: an absent field
(`undefined`) and the empty string are both falsy, mirroring `!args.prompt`,
`!args.output` and `args.model || ...` in the source. -/
def falsyStr : Option String → Bool
  | none => true
  | some s => s.isEmpty

/-- The raw argument bag of a `tools/call` request, after the TypeScript cast
at the top of the `CallToolRequestSchema` handler. Every field is optional at
runtime; `model` is kept as a free string because the cast performs no runtime
check on enum membership. -/
structure Args where
  prompt : Option String := none
  output : Option String := none
  model : Option String := none
  n : Option Nat := none
  size : Option String := none
  quality : Option String := none
  style : Option String := none
  response_format : Option String := none
  background : Option String := none
  moderation : Option String := none
  output_compression : Option Nat := none
  output_format : Option String := none
  partial_images : Option Nat := none
  stream : Option Bool := none
  user : Option String := none
deriving DecidableEq

/-- Fields copied into the options object in the `model` equal to `gpt-image-1` in the first
test of the handler (besides the `model` tag itself). -/
structure GptImage1Options where
  n : Option Nat
  size : Option String
  quality : Option String
  background : Option String
  moderation : Option String
  output_compression : Option Nat
  output_format : Option String
  partial_images : Option Nat
  stream : Option Bool
  user : Option String
deriving DecidableEq

/-- Fields copied into the options object in the `model` equal to `dall-e-3` in the
second test of the handler. The source hardcodes `n` to the literal 1 there. -/
structure Dalle3Options where
  n : Option Nat
  size : Option String
  quality : Option String
  style : Option String
  response_format : Option String
  user : Option String
deriving DecidableEq

/-- Fields copied into the options object in the final `else` branch of the
handler, which hardcodes the `model` tag to `dall-e-2`. -/
structure Dalle2Options where
  n : Option Nat
  size : Option String
  response_format : Option String
  user : Option String
deriving DecidableEq

/-- The `ImageGenerationOptions` value handed to the provider: a tagged union
whose tag is the `model` field of the TypeScript object literal. -/
inductive ImageGenerationOptions where
  | gptImage1 : GptImage1Options → ImageGenerationOptions
  | dalle3 : Dalle3Options → ImageGenerationOptions
  | dalle2 : Dalle2Options → ImageGenerationOptions
deriving DecidableEq

/-- The string carried by the `model` field of the options object literal
(hardcoded per branch in the source). -/
def ImageGenerationOptions.modelTag : ImageGenerationOptions → String
  | .gptImage1 _ => "gpt-image-1"
  | .dalle3 _ => "dall-e-3"
  | .dalle2 _ => "dall-e-2"

/-- The `n` field of the options object, when present. -/
def ImageGenerationOptions.nValue : ImageGenerationOptions → Option Nat
  | .gptImage1 o => o.n
  | .dalle3 o => o.n
  | .dalle2 o => o.n

/-- The key `k` if the optional field is set, nothing otherwise: a field set
to `undefined` is dropped by JSON serialization of the options object, so it
is never sent upstream. -/
def optKey {α : Type} (k : String) : Option α → List String
  | none => []
  | some _ => [k]

/-- The set of field keys an options value carries when serialized for the
upstream request, mirroring which fields each branch of the source copies. -/
def ImageGenerationOptions.presentKeys : ImageGenerationOptions → List String
  | .gptImage1 o =>
      ["model"] ++ optKey "n" o.n ++ optKey "size" o.size
        ++ optKey "quality" o.quality ++ optKey "background" o.background
        ++ optKey "moderation" o.moderation
        ++ optKey "output_compression" o.output_compression
        ++ optKey "output_format" o.output_format
        ++ optKey "partial_images" o.partial_images
        ++ optKey "stream" o.stream ++ optKey "user" o.user
  | .dalle3 o =>
      ["model"] ++ optKey "n" o.n ++ optKey "size" o.size
        ++ optKey "quality" o.quality ++ optKey "style" o.style
        ++ optKey "response_format" o.response_format ++ optKey "user" o.user
  | .dalle2 o =>
      ["model"] ++ optKey "n" o.n ++ optKey "size" o.size
        ++ optKey "response_format" o.response_format ++ optKey "user" o.user

/-- The `model` defaulting of the handler, a JavaScript or-expression over
`args.model` with default `dall-e-2`: a falsy `model` argument
(absent or empty) defaults to `dall-e-2`, otherwise the given string is
used unchanged. -/
def effectiveModel (args : Args) : String :=
  if falsyStr args.model then "dall-e-2" else args.model.getD ""

/-- The per-model options construction of the handler (lines 200-235 of the
source): an if-chain testing `model` against `gpt-image-1`, then against
`dall-e-3`, with a final catch-all branch; each branch copies only its own
fields from `args`. -/
def buildOptions (model : String) (args : Args) : ImageGenerationOptions :=
  if model = "gpt-image-1" then
    .gptImage1
      { n := args.n
        size := args.size
        quality := args.quality
        background := args.background
        moderation := args.moderation
        output_compression := args.output_compression
        output_format := args.output_format
        partial_images := args.partial_images
        stream := args.stream
        user := args.user }
  else if model = "dall-e-3" then
    .dalle3
      { n := some 1
        size := args.size
        quality := args.quality
        style := args.style
        response_format := args.response_format
        user := args.user }
  else
    .dalle2
      { n := args.n
        size := args.size
        response_format := args.response_format
        user := args.user }

/-- The options value the handler passes to
`this.openAiProvider.generateImage`. -/
def effectiveOptions (args : Args) : ImageGenerationOptions :=
  buildOptions (effectiveModel args) args

/-- Result of a successful generation, as returned by the provider:
the list of file paths written plus an opaque echo of the upstream
response metadata. -/
structure GenerationResult where
  savedFiles : List String
  response : String
deriving DecidableEq

/-- One entry of the `content` array of a tool-call result. -/
structure ToolContent where
  type : String
  text : String
deriving DecidableEq

/-- The tool-call result envelope returned by the handler: a `content` array
and the `isError` flag (absent in the success literal of the source, which we
render as `false`). -/
structure ToolResult where
  content : List ToolContent
  isError : Bool
deriving DecidableEq

/-- The MCP error codes used by the handler when it throws `McpError`. -/
inductive ErrorCode where
  | MethodNotFound
  | InvalidParams
deriving DecidableEq

/-- An `McpError` thrown by the handler; the SDK turns it into a
protocol-level JSON-RPC error response. -/
structure McpError where
  code : ErrorCode
  message : String
deriving DecidableEq

/-- The Image Provider Adapter as an abstract collaborator:
`generateImage(prompt, outputPath, options)` either succeeds with a
`GenerationResult` or raises an error, modelled by its message string. -/
def Provider : Type :=
  String → String → ImageGenerationOptions → Except String GenerationResult

/-- Rendering of the success payload
`JSON.stringify({success: true, savedFiles, response})`; the exact JSON
layout is abstracted, only that it is a text block derived from the result. -/
def successText (r : GenerationResult) : String :=
  "success: true; savedFiles: " ++ String.intercalate ", " r.savedFiles
    ++ "; response: " ++ r.response

/-- The `CallToolRequestSchema` handler (lines 155-269 of the source):
reject unknown tool names with `MethodNotFound`; reject falsy `prompt` then
falsy `output` with `InvalidParams`; otherwise build the model-specific
options, call the provider, and wrap either its result or its error message
in a normal tool-call envelope. A thrown `McpError` is the `.error` case;
everything else is a normal `.ok` response. -/
def handleCallTool (generateImage : Provider) (toolName : String)
    (args : Args) : Except McpError ToolResult :=
  if toolName ≠ "generate_image" then
    .error ⟨.MethodNotFound, "Unknown tool: " ++ toolName⟩
  else if falsyStr args.prompt then
    .error ⟨.InvalidParams, "Prompt is required"⟩
  else if falsyStr args.output then
    .error ⟨.InvalidParams, "Output file path is required"⟩
  else
    match generateImage (args.prompt.getD "") (args.output.getD "")
        (effectiveOptions args) with
    | .ok result => .ok ⟨[⟨"text", successText result⟩], false⟩
    | .error msg =>
        .ok ⟨[⟨"text", "Error generating image: "
          ++ (if msg.isEmpty then "Unknown error" else msg)⟩], true⟩

/-- A tool descriptor as returned by `tools/list`: name, description, the
keys of the `properties` object of the input schema, and its `required`
array. -/
structure ToolDescriptor where
  name : String
  description : String
  propertyKeys : List String
  required : List String
deriving DecidableEq

/-- The single descriptor the `ListToolsRequestSchema` handler returns
(lines 62-153 of the source). -/
def generateImageTool : ToolDescriptor where
  name := "generate_image"
  description := "Generate an image using OpenAI\x27s image generation models (DALL-E or GPT-Image) and save it to a file"
  propertyKeys :=
    ["prompt", "output", "model", "n", "size", "quality", "style",
     "response_format", "background", "moderation", "output_compression",
     "output_format", "partial_images", "stream", "user"]
  required := ["prompt", "output"]

/-- The state of the server: the only configuration it holds is the credential
injected into the provider at construction; handlers never mutate it. -/
structure ServerState where
  apiKey : String
deriving DecidableEq

/-- The `ListToolsRequestSchema` handler: a pure function returning the fixed
descriptor list and leaving the server state untouched. -/
def handleListTools (s : ServerState) : ServerState × List ToolDescriptor :=
  (s, [generateImageTool])

/-- Outcome of the startup credential check at module load
(lines 17-28 of the source). -/
inductive StartupOutcome where
  | exitBeforeServing : List String → StartupOutcome
  | serving : List String → StartupOutcome
deriving DecidableEq

/-- The JavaScript test `key.startsWith("sk-")`: the first three characters
of the string are `s`, `k`, `-`. -/
def startsWithSk (s : String) : Bool :=
  match s.data with
  | c1 :: c2 :: c3 :: _ => c1 = 's' && c2 = 'k' && c3 = '-'
  | _ => false

/-- The startup check on `process.env.OPENAI_API_KEY`: a falsy value (unset,
or set to the empty string) is fatal via `process.exit(1)` before the server
is constructed; a value not starting with `sk-` only logs a warning and the
process still starts serving. -/
def checkStartup (openaiApiKey : Option String) : StartupOutcome :=
  if falsyStr openaiApiKey then
    .exitBeforeServing
      ["ERROR: OPENAI_API_KEY environment variable is required",
       "Please provide your OpenAI API key in the .env file or in the MCP settings configuration."]
  else if !startsWithSk (openaiApiKey.getD "") then
    .serving
      ["WARNING: The OPENAI_API_KEY does not appear to be in the expected format.",
       "OpenAI API keys typically start with \x22sk-\x22."]
  else
    .serving []

/-- Splits a character list around its last `.`: returns the part before and
the part after, or nothing when no `.` occurs. -/
def splitLastDot : List Char → Option (List Char × List Char)
  | [] => none
  | c :: rest =>
    match splitLastDot rest with
    | some (pre, ext) => some (c :: pre, ext)
    | none => if c = '.' then some ([], rest) else none

/-- Modelled from the spec: the Image Provider Adapter
(`openai-provider.ts`, whose source is not part of this repository snapshot)
derives multi-image filenames from the base output path by inserting a
numeric suffix before the extension (`image.png` becomes `image-1.png`,
`image-2.png`, ...). -/
def suffixedPath (base : String) (i : Nat) : String :=
  match splitLastDot base.data with
  | some (pre, ext) =>
      String.mk pre ++ "-" ++ toString i ++ "." ++ String.mk ext
  | none => base ++ "-" ++ toString i

/-- Modelled from the spec: the on-disk paths of a non-streaming generation
that produced `n` images for output path `output`; for a single image the
base path is used, for `n > 1` the suffixed paths `1..n` are used so no
output collides. -/
def savedPaths (output : String) (n : Nat) : List String :=
  if n ≤ 1 then [output]
  else (List.range n).map (fun i => suffixedPath output (i + 1))

/-- Modelled from the spec: a successful non-streaming `generateImage` call
persists each of the `n` requested images and returns their `savedFiles`
paths plus a metadata echo of the upstream response. -/
def generateImageSpec (outputPath : String)
    (options : ImageGenerationOptions) : GenerationResult where
  savedFiles := savedPaths outputPath (options.nValue.getD 1)
  response := "upstream-metadata"

/-- A stub provider that always succeeds with an empty result, used to
instantiate theorems whose statements quantify over the provider. -/
def stubProvider : Provider :=
  fun _ _ _ => .ok ⟨[], "upstream-metadata"⟩

/-- A provider that always fails, with the given message. -/
def failingProvider (msg : String) : Provider :=
  fun _ _ _ => .error msg

/-- Arguments consisting only of a prompt, an output path and an optional
model: the minimal well-formed call of testable property 2. -/
def minimalArgs (prompt output : String) (model : Option String) : Args :=
  { prompt := some prompt, output := some output, model := model }

/-- A dall-e-3 call whose caller supplied `n = 5`. -/
def argsDalle3N5 : Args :=
  { prompt := some "a cat", output := some "cat.png",
    model := some "dall-e-3", n := some 5 }

/-- A gpt-image-1 call that also supplies the fields inapplicable to that
model (`style`, `response_format`). -/
def argsGptExtra : Args :=
  { prompt := some "a cat", output := some "cat.png",
    model := some "gpt-image-1", style := some "vivid",
    response_format := some "url" }

/-- A call whose model string is outside the declared three-value enum. -/
def argsBogusModel : Args :=
  { prompt := some "a cat", output := some "cat.png",
    model := some "stable-diffusion", n := some 2 }

/-- Membership in `optKey`: the key is carried exactly when it is the
declared key and the field is set. -/
lemma mem_optKey_iff {α : Type} {k k' : String} {o : Option α} :
    k ∈ optKey k' o ↔ (k = k' ∧ o.isSome = true) := by
  cases o <;> simp [optKey]

/-- On a `generate_image` call with truthy prompt and output, the handler
reduces to the wrapped provider call. -/
lemma handleCallTool_valid (gen : Provider) (args : Args)
    (hp : falsyStr args.prompt = false) (ho : falsyStr args.output = false) :
    handleCallTool gen "generate_image" args =
      match gen (args.prompt.getD "") (args.output.getD "")
          (effectiveOptions args) with
      | .ok result => .ok ⟨[⟨"text", successText result⟩], false⟩
      | .error msg =>
          .ok ⟨[⟨"text", "Error generating image: "
            ++ (if msg.isEmpty then "Unknown error" else msg)⟩], true⟩ := by
  unfold handleCallTool
  rw [if_neg (fun hc => hc rfl), if_neg (by simp [hp]), if_neg (by simp [ho])]

/-- On a `generate_image` call with truthy prompt and output, the handler
always returns a normal response envelope, never a protocol-level error. -/
lemma handleCallTool_valid_isOk (gen : Provider) (args : Args)
    (hp : falsyStr args.prompt = false) (ho : falsyStr args.output = false) :
    ∃ r, handleCallTool gen "generate_image" args = .ok r := by
  rw [handleCallTool_valid gen args hp ho]
  cases gen (args.prompt.getD "") (args.output.getD "")
      (effectiveOptions args) with
  | ok result => exact ⟨_, rfl⟩
  | error msg => exact ⟨_, rfl⟩

/-- Claim C1: every invocation of `tools/list` returns exactly one tool
descriptor, its name is `generate_image`, the required set of its input
schema is exactly the pair of `prompt` and `output`, and the server state is
left unchanged (no side effects). -/
theorem listTools_exactly_one_generate_image (s : ServerState) :
    (handleListTools s).1 = s ∧
    (handleListTools s).2.length = 1 ∧
    ∀ t ∈ (handleListTools s).2,
      t.name = "generate_image" ∧
      t.required = ["prompt", "output"] ∧
      ∀ f, f ∈ t.required ↔ (f = "prompt" ∨ f = "output") := by
  refine ⟨rfl, rfl, ?_⟩
  intro t ht
  simp only [handleListTools, List.mem_singleton] at ht
  subst ht
  refine ⟨rfl, rfl, ?_⟩
  intro f
  simp [generateImageTool]

/-- Witness for C1 at a concrete server state. -/
theorem listTools_exactly_one_generate_image_witness :
    (handleListTools ⟨"sk-test"⟩).1 = (⟨"sk-test"⟩ : ServerState) ∧
    (handleListTools ⟨"sk-test"⟩).2.length = 1 :=
  ⟨(listTools_exactly_one_generate_image ⟨"sk-test"⟩).1,
   (listTools_exactly_one_generate_image ⟨"sk-test"⟩).2.1⟩

/-- Claim C2: when the selected model is `dall-e-3`, the options value passed
to the provider carries `n = 1`, whatever `n` the caller supplied (present
or absent). -/
theorem dalle3_forces_n_one (args : Args) (h : args.model = some "dall-e-3") :
    (effectiveOptions args).nValue = some 1 := by
  have hmodel : effectiveModel args = "dall-e-3" := by
    unfold effectiveModel
    rw [h]
    rfl
  unfold effectiveOptions buildOptions
  rw [hmodel, if_neg (by decide), if_pos rfl]
  rfl

/-- Witness for C2: a caller-supplied `n = 5` is overridden to 1. -/
theorem dalle3_forces_n_one_witness :
    (effectiveOptions argsDalle3N5).nValue = some 1 :=
  dalle3_forces_n_one argsDalle3N5 rfl

/-- Claim C3: when the provider raises any error on a call with truthy
prompt and output, the handler returns a normal tool-call result whose
`isError` flag is true and whose text contains the message of the error;
the error never escapes as a protocol-level error. -/
theorem provider_error_becomes_isError (gen : Provider) (args : Args)
    (msg : String)
    (hp : falsyStr args.prompt = false) (ho : falsyStr args.output = false)
    (hg : gen (args.prompt.getD "") (args.output.getD "")
      (effectiveOptions args) = .error msg) :
    ∃ text,
      handleCallTool gen "generate_image" args =
        .ok ⟨[⟨"text", text⟩], true⟩ ∧
      (msg.isEmpty = true ∨ ∃ pre, text = pre ++ msg) := by
  refine ⟨"Error generating image: "
    ++ (if msg.isEmpty then "Unknown error" else msg), ?_, ?_⟩
  · rw [handleCallTool_valid gen args hp ho, hg]
  · by_cases hmsg : msg.isEmpty = true
    · exact Or.inl hmsg
    · refine Or.inr ⟨"Error generating image: ", ?_⟩
      rw [if_neg hmsg]

/-- Witness for C3 at a concrete failing provider. -/
theorem provider_error_becomes_isError_witness :
    ∃ text,
      handleCallTool (failingProvider "upstream rejected the request")
          "generate_image" (minimalArgs "a cat" "cat.png" none) =
        .ok ⟨[⟨"text", text⟩], true⟩ ∧
      (String.isEmpty "upstream rejected the request" = true ∨
        ∃ pre, text = pre ++ "upstream rejected the request") :=
  provider_error_becomes_isError
    (failingProvider "upstream rejected the request")
    (minimalArgs "a cat" "cat.png" none) "upstream rejected the request"
    rfl rfl rfl

/-- Claim C4: the constructed options variant carries only the fields
applicable to the selected model — `style` and `response_format` are absent
from the gpt-image-1 variant; `background`, `moderation`,
`output_compression`, `output_format`, `partial_images` and `stream` are
absent from the dall-e-3 and dall-e-2 variants; `quality` and `style` are
absent from the dall-e-2 variant — and inapplicable caller-supplied fields
never cause an error. -/
theorem options_drop_inapplicable_fields (args : Args) :
    (effectiveModel args = "gpt-image-1" →
      "style" ∉ (effectiveOptions args).presentKeys ∧
      "response_format" ∉ (effectiveOptions args).presentKeys) ∧
    (effectiveModel args ≠ "gpt-image-1" →
      "background" ∉ (effectiveOptions args).presentKeys ∧
      "moderation" ∉ (effectiveOptions args).presentKeys ∧
      "output_compression" ∉ (effectiveOptions args).presentKeys ∧
      "output_format" ∉ (effectiveOptions args).presentKeys ∧
      "partial_images" ∉ (effectiveOptions args).presentKeys ∧
      "stream" ∉ (effectiveOptions args).presentKeys) ∧
    (effectiveModel args ≠ "gpt-image-1" → effectiveModel args ≠ "dall-e-3" →
      "quality" ∉ (effectiveOptions args).presentKeys ∧
      "style" ∉ (effectiveOptions args).presentKeys) ∧
    ∀ gen : Provider, falsyStr args.prompt = false →
      falsyStr args.output = false →
      ∃ r, handleCallTool gen "generate_image" args = .ok r := by
  refine ⟨?_, ?_, ?_, ?_⟩
  · intro hm
    unfold effectiveOptions buildOptions
    rw [hm, if_pos rfl]
    constructor <;>
      simp [ImageGenerationOptions.presentKeys, List.mem_append,
        mem_optKey_iff]
  · intro hm
    unfold effectiveOptions buildOptions
    rw [if_neg hm]
    by_cases h3 : effectiveModel args = "dall-e-3"
    · rw [if_pos h3]
      refine ⟨?_, ?_, ?_, ?_, ?_, ?_⟩ <;>
        simp [ImageGenerationOptions.presentKeys, List.mem_append,
          mem_optKey_iff]
    · rw [if_neg h3]
      refine ⟨?_, ?_, ?_, ?_, ?_, ?_⟩ <;>
        simp [ImageGenerationOptions.presentKeys, List.mem_append,
          mem_optKey_iff]
  · intro hm h3
    unfold effectiveOptions buildOptions
    rw [if_neg hm, if_neg h3]
    constructor <;>
      simp [ImageGenerationOptions.presentKeys, List.mem_append,
        mem_optKey_iff]
  · intro gen hp ho
    exact handleCallTool_valid_isOk gen args hp ho

/-- Witness for C4: a gpt-image-1 call that also supplies `style` and
`response_format` drops both from the options sent upstream. -/
theorem options_drop_inapplicable_fields_witness :
    "style" ∉ (effectiveOptions argsGptExtra).presentKeys ∧
    "response_format" ∉ (effectiveOptions argsGptExtra).presentKeys :=
  (options_drop_inapplicable_fields argsGptExtra).1 rfl

/-- Claim C5: a `generate_image` call whose prompt or output is missing or
empty is rejected with `InvalidParams` before the provider is invoked, the
prompt being checked first; the call never succeeds. -/
theorem missing_params_rejected (gen : Provider) (args : Args)
    (h : falsyStr args.prompt = true ∨ falsyStr args.output = true) :
    (∃ m, handleCallTool gen "generate_image" args =
      .error ⟨.InvalidParams, m⟩) ∧
    (falsyStr args.prompt = true →
      handleCallTool gen "generate_image" args =
        .error ⟨.InvalidParams, "Prompt is required"⟩) ∧
    ∀ gen2 : Provider, handleCallTool gen2 "generate_image" args =
      handleCallTool gen "generate_image" args := by
  have hname : ¬("generate_image" ≠ "generate_image") := fun hc => hc rfl
  by_cases hp : falsyStr args.prompt = true
  · have key : ∀ g : Provider,
        handleCallTool g "generate_image" args =
          .error ⟨.InvalidParams, "Prompt is required"⟩ := by
      intro g
      unfold handleCallTool
      rw [if_neg hname, if_pos hp]
    exact ⟨⟨_, key gen⟩, fun _ => key gen,
      fun gen2 => (key gen2).trans (key gen).symm⟩
  · have ho : falsyStr args.output = true := h.resolve_left hp
    have key : ∀ g : Provider,
        handleCallTool g "generate_image" args =
          .error ⟨.InvalidParams, "Output file path is required"⟩ := by
      intro g
      unfold handleCallTool
      rw [if_neg hname, if_neg hp, if_pos ho]
    exact ⟨⟨_, key gen⟩, fun hc => absurd hc hp,
      fun gen2 => (key gen2).trans (key gen).symm⟩

/-- Witness for C5: the empty argument bag is rejected on the prompt. -/
theorem missing_params_rejected_witness :
    handleCallTool stubProvider "generate_image" {} =
      Except.error ⟨ErrorCode.InvalidParams, "Prompt is required"⟩ :=
  (missing_params_rejected stubProvider {} (Or.inl rfl)).2.1 rfl

/-- Claim C6: a `tools/call` naming any tool other than `generate_image`
fails with a method-not-found classification and the provider is never
consulted. -/
theorem unknown_tool_method_not_found (gen : Provider) (toolName : String)
    (args : Args) (h : toolName ≠ "generate_image") :
    handleCallTool gen toolName args =
      .error ⟨.MethodNotFound, "Unknown tool: " ++ toolName⟩ ∧
    ∀ gen2 : Provider,
      handleCallTool gen2 toolName args =
        handleCallTool gen toolName args := by
  have key : ∀ g : Provider, handleCallTool g toolName args =
      .error ⟨.MethodNotFound, "Unknown tool: " ++ toolName⟩ := by
    intro g
    unfold handleCallTool
    rw [if_pos h]
  exact ⟨key gen, fun gen2 => (key gen2).trans (key gen).symm⟩

/-- Witness for C6 at a concrete unknown tool name. -/
theorem unknown_tool_method_not_found_witness :
    handleCallTool stubProvider "delete_image" {} =
      Except.error ⟨ErrorCode.MethodNotFound,
        "Unknown tool: " ++ "delete_image"⟩ :=
  (unknown_tool_method_not_found stubProvider "delete_image" {}
    (by decide)).1

/-- Claim C7: an absent model argument routes to dall-e-2 (the options carry
the `dall-e-2` model tag), and each of the three supported model values,
supplied with only a prompt and an output, routes to the builder of that
model without a parameter error. -/
theorem model_default_and_routing (args : Args) (p o : String)
    (hargs : args.model = none)
    (hp : p.isEmpty = false) (ho : o.isEmpty = false) :
    (effectiveOptions args).modelTag = "dall-e-2" ∧
    ∀ m ∈ (["gpt-image-1", "dall-e-3", "dall-e-2"] : List String),
      (effectiveOptions (minimalArgs p o (some m))).modelTag = m ∧
      ∀ gen : Provider, ∃ r,
        handleCallTool gen "generate_image" (minimalArgs p o (some m)) =
          .ok r := by
  constructor
  · have hmodel : effectiveModel args = "dall-e-2" := by
      unfold effectiveModel
      rw [hargs]
      rfl
    unfold effectiveOptions buildOptions
    rw [hmodel, if_neg (by decide), if_neg (by decide)]
    rfl
  · intro m hm
    have hfp : falsyStr (minimalArgs p o (some m)).prompt = false := by
      simp [minimalArgs, falsyStr, hp]
    have hfo : falsyStr (minimalArgs p o (some m)).output = false := by
      simp [minimalArgs, falsyStr, ho]
    have hmodel : ∀ s : String, s.isEmpty = false →
        effectiveModel (minimalArgs p o (some s)) = s := by
      intro s hs
      unfold effectiveModel
      rw [if_neg (by simp [minimalArgs, falsyStr, hs])]
      rfl
    fin_cases hm
    · refine ⟨?_, fun gen => handleCallTool_valid_isOk gen _ hfp hfo⟩
      unfold effectiveOptions buildOptions
      rw [hmodel "gpt-image-1" rfl, if_pos rfl]
      rfl
    · refine ⟨?_, fun gen => handleCallTool_valid_isOk gen _ hfp hfo⟩
      unfold effectiveOptions buildOptions
      rw [hmodel "dall-e-3" rfl, if_neg (by decide), if_pos rfl]
      rfl
    · refine ⟨?_, fun gen => handleCallTool_valid_isOk gen _ hfp hfo⟩
      unfold effectiveOptions buildOptions
      rw [hmodel "dall-e-2" rfl, if_neg (by decide), if_neg (by decide)]
      rfl

/-- Witness for C7 at concrete prompt and output with no model argument. -/
theorem model_default_and_routing_witness :
    (effectiveOptions (minimalArgs "a cat" "cat.png" none)).modelTag =
      "dall-e-2" :=
  (model_default_and_routing (minimalArgs "a cat" "cat.png" none)
    "a cat" "cat.png" rfl rfl rfl).1

/-- Claim C8 (provider naming modelled from the spec): a successful
non-streaming generation of three images to `out.png` saves exactly the
three files `out-1.png`, `out-2.png`, `out-3.png`, the numeric suffix
inserted before the extension, and the three paths are pairwise distinct. -/
theorem three_images_suffixed_paths :
    (generateImageSpec "out.png"
        (ImageGenerationOptions.dalle2
          { n := some 3, size := none, response_format := none,
            user := none })).savedFiles =
      ["out-1.png", "out-2.png", "out-3.png"] ∧
    (["out-1.png", "out-2.png", "out-3.png"] : List String).Nodup := by
  constructor
  · decide
  · decide

/-- Claim C9: a missing credential at process start is fatal before any
request is served, while a credential that is present but does not start
with `sk-` only produces a warning and the process still starts serving. -/
theorem startup_credential_check (k : String) (hk : k.isEmpty = false)
    (hsk : startsWithSk k = false) :
    (∃ d, checkStartup none = .exitBeforeServing d) ∧
    ∃ w, checkStartup (some k) = .serving w ∧ w ≠ [] := by
  refine ⟨⟨_, rfl⟩,
    ⟨["WARNING: The OPENAI_API_KEY does not appear to be in the expected format.",
      "OpenAI API keys typically start with \x22sk-\x22."], ?_, by simp⟩⟩
  unfold checkStartup
  rw [if_neg (by simp [falsyStr, hk]), if_pos (by simp [hsk])]

/-- Witness for C9 at a concrete malformed credential. -/
theorem startup_credential_check_witness :
    (∃ d, checkStartup none = StartupOutcome.exitBeforeServing d) ∧
    ∃ w, checkStartup (some "test-api-key") = StartupOutcome.serving w ∧
      w ≠ [] :=
  startup_credential_check "test-api-key" (by decide) (by decide)

/-- Claim C10: a model argument that is any string other than `gpt-image-1`
and `dall-e-3` — including values outside the declared three-value enum —
is silently routed to the dall-e-2 builder, the options carrying the
`dall-e-2` model tag, and the call proceeds instead of being rejected. -/
theorem unrecognized_model_routes_to_dalle2 (gen : Provider) (args : Args)
    (m : String) (hm : args.model = some m)
    (h1 : m ≠ "gpt-image-1") (h2 : m ≠ "dall-e-3")
    (hp : falsyStr args.prompt = false) (ho : falsyStr args.output = false) :
    effectiveOptions args =
      .dalle2 { n := args.n, size := args.size,
                response_format := args.response_format,
                user := args.user } ∧
    (effectiveOptions args).modelTag = "dall-e-2" ∧
    ∃ r, handleCallTool gen "generate_image" args = .ok r := by
  have hmodel : effectiveModel args ≠ "gpt-image-1" ∧
      effectiveModel args ≠ "dall-e-3" := by
    unfold effectiveModel
    rw [hm]
    by_cases him : m.isEmpty = true
    · rw [if_pos (by simp [falsyStr, him])]
      exact ⟨by decide, by decide⟩
    · rw [if_neg (by simp [falsyStr, him])]
      exact ⟨h1, h2⟩
  have hopts : effectiveOptions args =
      .dalle2 { n := args.n, size := args.size,
                response_format := args.response_format,
                user := args.user } := by
    unfold effectiveOptions buildOptions
    rw [if_neg hmodel.1, if_neg hmodel.2]
  refine ⟨hopts, ?_, handleCallTool_valid_isOk gen args hp ho⟩
  rw [hopts]
  rfl

/-- Witness for C10 at a model value outside the declared enum. -/
theorem unrecognized_model_routes_to_dalle2_witness :
    effectiveOptions argsBogusModel =
      ImageGenerationOptions.dalle2
        { n := argsBogusModel.n, size := argsBogusModel.size,
          response_format := argsBogusModel.response_format,
          user := argsBogusModel.user } ∧
    (effectiveOptions argsBogusModel).modelTag = "dall-e-2" ∧
    ∃ r, handleCallTool stubProvider "generate_image" argsBogusModel =
      Except.ok r :=
  unrecognized_model_routes_to_dalle2 stubProvider argsBogusModel
    "stable-diffusion" rfl (by decide) (by decide) rfl rfl

end OpenAiImageMcp
